import Mathlib

/-!
Verification of the AutoReadMe frontend against its specification.

The repository's source under scrutiny is the React/TypeScript frontend:
`src/frontend/src/lib/api.ts` (the axios API client `submitRepo` and
`checkStatus`, and the polling hook `useJobStatus`),
`src/frontend/src/components/Hero.tsx` (`validateUrl`, `handleSubmit`),
and the status tracker component (`statusSteps`, `getCurrentStep`).

These are embedded shallowly below: HTTP outcomes become an explicit
outcome type, JavaScript `null`/`undefined`/empty-string falsiness is
modelled with `Option String` plus explicit falsiness helpers, and the
polling `setInterval` loop becomes explicit state passing over a list of
observed poll outcomes.
-/

namespace AutoReadMe

/-- The four job status values of the backend API, as in the TS union type
`'queued' | 'processing' | 'completed' | 'failed'` in `api.ts`. -/
inductive Status where
  | queued
  | processing
  | completed
  | failed
deriving DecidableEq, Repr

/-- The `JobStatusResponse` interface of `api.ts`.  Optional TS fields become
`Option`s defaulting to `none` (absent). -/
structure JobStatusResponse where
  job_id : String
  status : Status
  stage : Option String := none
  files_processed : Option Nat := none
  documents_generated : Option Nat := none
  result : Option (List (String × String)) := none
  result_url : Option String := none
  error : Option String := none
deriving DecidableEq, Repr

/-- Outcome of one HTTP request as seen by the axios client: a successful
response carrying data, an axios error carrying an optional HTTP status code
and an optional `detail` field from the response body, or a non-axios error. -/
inductive ApiOutcome (α : Type) where
  | success (data : α)
  | axiosError (statusCode : Option Nat) (detail : Option String)
  | otherError (msg : String)
deriving DecidableEq, Repr

/-- Result of a client API function: a returned value, a thrown
`new Error(...)` with its message, or a rethrown non-axios error. -/
inductive ApiResult (α : Type) where
  | ok (data : α)
  | thrown (msg : String)
  | rethrown (msg : String)
deriving DecidableEq, Repr

/-- `checkStatus` from `api.ts`: returns the response data; on an axios error
with HTTP status 404 it returns `{ job_id: jobId, status: 'queued' }`
(source comment: "404 = job not registered yet, treat as queued"); on any
other axios error it throws `detail` or the fallback message; a non-axios
error is rethrown. -/
def checkStatus (jobId : String) (outcome : ApiOutcome JobStatusResponse) :
    ApiResult JobStatusResponse :=
  match outcome with
  | ApiOutcome.success data => ApiResult.ok data
  | ApiOutcome.axiosError statusCode detail =>
      if statusCode = some 404 then
        ApiResult.ok { job_id := jobId, status := Status.queued }
      else
        ApiResult.thrown (match detail with
          | some d => d
          | none => "Failed to check job status")
  | ApiOutcome.otherError msg => ApiResult.rethrown msg

/-- The `SubmitRepoResponse` interface of `api.ts`. -/
structure SubmitRepoResponse where
  job_id : String
  status : String
  message : String
deriving DecidableEq, Repr

/-- The JSON body `submitRepo` posts to `/api/submit` in `api.ts`: a single
field named `github_url` holding the entered URL. -/
def submitRequestBody (url : String) : List (String × String) :=
  [("github_url", url)]

/-- Error taxonomy item for submission, from spec §7. -/
inductive SubmitError where
  | invalidRequest
deriving DecidableEq, Repr

/-- Modelled from the spec: the backend submission endpoint is not under
`src/` (only the frontend is), so §6 is followed: the endpoint "validates it
denotes a repository reference; returns `{ job_id, status: "queued" }` or
fails with `InvalidRequest` (malformed/missing URL)".  It reads the URL from
the field the client actually sends (`github_url`); validity of a URL string
is an abstract parameter `valid`, and the fresh job id a parameter. -/
def submitEndpoint (valid : String → Bool) (freshId : String)
    (body : List (String × String)) : Except SubmitError SubmitRepoResponse :=
  match body.lookup "github_url" with
  | none => Except.error SubmitError.invalidRequest
  | some url =>
      if valid url then
        Except.ok { job_id := freshId, status := "queued", message := "" }
      else
        Except.error SubmitError.invalidRequest

/-- One entry of the status tracker's `statusSteps` array (icons dropped):
an `id` and a display `label`. -/
structure StepInfo where
  id : String
  label : String
deriving DecidableEq, Repr

/-- The `statusSteps` array of the status tracker component: the five
displayed steps Queued, Cloning, Analyzing, Uploading, Completed. -/
def statusSteps : List StepInfo :=
  [⟨"queued", "Queued"⟩, ⟨"cloning", "Cloning"⟩, ⟨"analyzing", "Analyzing"⟩,
   ⟨"uploading", "Uploading"⟩, ⟨"completed", "Completed"⟩]

/-- The JavaScript `toLowerCase()` on a string, as a character-wise map (the
stage labels involved are ASCII). -/
def strToLower (s : String) : String :=
  String.mk (s.data.map Char.toLower)

/-- The `switch (stage.toLowerCase())` of `getCurrentStep` for a truthy
(non-empty) stage string: starting/cloning ↦ 1, analyzing/generating ↦ 2,
uploading ↦ 3, anything else defaults to 1. -/
def stageStep (s : String) : Int :=
  if strToLower s = "starting" || strToLower s = "cloning" then 1
  else if strToLower s = "analyzing" || strToLower s = "generating" then 2
  else if strToLower s = "uploading" then 3
  else 1

/-- `getCurrentStep` of the status tracker.  TS `status: string | null` and
`stage: string | null | undefined` become `Option String`; the JS truthiness
test `status === 'processing' && stage` makes a `none` or empty-string stage
fall through to the bare-processing branch returning 1. -/
def getCurrentStep (status stage : Option String) : Int :=
  if status = some "failed" then -1
  else if status = some "completed" then 4
  else if status = some "queued" then 0
  else
    match status, stage with
    | some "processing", some s => if s = "" then 1 else stageStep s
    | some "processing", none => 1
    | _, _ => -1

/-- Whether a stage string is one of the labels `getCurrentStep`'s switch
recognises, compared after `toLowerCase` as the source does. -/
def knownStage (s : String) : Bool :=
  strToLower s = "starting" || strToLower s = "cloning" ||
    strToLower s = "analyzing" || strToLower s = "generating" ||
    strToLower s = "uploading"

/-- Substring containment on the underlying character list, modelling the
JavaScript `String.prototype.includes`. -/
def charsContain (pat : List Char) : List Char → Bool
  | [] => pat.isEmpty
  | c :: rest => pat.isPrefixOf (c :: rest) || charsContain pat rest

/-- `s.includes pat` for strings. -/
def strContains (s pat : String) : Bool :=
  charsContain pat.data s.data

/-- `validateUrl` from `Hero.tsx`.  The browser's `new URL(url)` builtin is
abstracted as a parameter `parse` returning the parsed hostname, or `none`
when the constructor throws: the function returns `false` when parsing
throws, and otherwise tests
`hostname === 'github.com' || hostname.includes('github.com')`. -/
def validateUrl (parse : String → Option String) (url : String) : Bool :=
  match parse url with
  | none => false
  | some hostname => hostname = "github.com" || strContains hostname "github.com"

/-- Outcome of Hero's `handleSubmit`: either rejected with the error message
set by `setError` (and `onSubmit` not called), or submitted, meaning
`onSubmit` was called with the given URL. -/
inductive SubmitOutcome where
  | rejected (errorMsg : String)
  | submitted (url : String)
deriving DecidableEq, Repr

/-- Whitespace removal at both ends of a character list. -/
def trimChars (l : List Char) : List Char :=
  ((l.dropWhile Char.isWhitespace).reverse.dropWhile Char.isWhitespace).reverse

/-- The JavaScript `trim()` on a string, modelled on the character list. -/
def strTrim (s : String) : String :=
  String.mk (trimChars s.data)

/-- `handleSubmit` from `Hero.tsx`: rejects when the trimmed URL is empty,
then when `validateUrl` (on the untrimmed input, as in the source) fails;
otherwise calls `onSubmit(url.trim())`. -/
def handleSubmit (parse : String → Option String) (url : String) : SubmitOutcome :=
  if strTrim url = "" then
    SubmitOutcome.rejected "Please enter a GitHub repository URL"
  else if validateUrl parse url = false then
    SubmitOutcome.rejected "Please enter a valid GitHub repository URL"
  else
    SubmitOutcome.submitted (strTrim url)

/-- The JavaScript coalescing `x || null` applied to an optional string:
`null`/`undefined` and the empty string are falsy and give `null`. -/
def jsOrNone : Option String → Option String
  | none => none
  | some s => if s = "" then none else some s

/-- The JavaScript coalescing `x || dflt` applied to an optional string:
`null`/`undefined` and the empty string are falsy and give the default. -/
def jsOrDefault (o : Option String) (dflt : String) : String :=
  match o with
  | none => dflt
  | some s => if s = "" then dflt else s

/-- JS falsiness of a nullable string (`!jobId`): `null` and `""`. -/
def jsStrFalsy : Option String → Bool
  | none => true
  | some s => s = ""

/-- Terminal statuses (spec glossary: `completed` or `failed`). -/
def isTerminal : Status → Bool
  | Status.completed => true
  | Status.failed => true
  | _ => false

/-- The five state cells of `useJobStatus` (`UseJobStatusReturn`), plus
`polling`, which records whether the `setInterval` handle in `intervalRef`
is live. -/
structure HookState where
  status : Option Status
  stage : Option String
  resultUrl : Option String
  error : Option String
  isLoading : Bool
  polling : Bool
deriving DecidableEq, Repr

/-- The `useState` initial values of `useJobStatus`: all `null`, not
loading, no interval. -/
def initialHookState : HookState :=
  { status := none, stage := none, resultUrl := none, error := none,
    isLoading := false, polling := false }

/-- Processing of the initial `checkStatus(jobId)` call in `useJobStatus`:
on success it writes status, `stage || null`, `result_url || null` and clears
loading; at a terminal status it never starts the interval (setting the error
to `error || 'Job failed'` when failed); otherwise it starts the interval.
A rejection hits the outer `.catch`, recording the message. -/
def initialStep (o : ApiResult JobStatusResponse) (s : HookState) : HookState :=
  match o with
  | ApiResult.ok d =>
      let s1 := { s with status := some d.status, stage := jsOrNone d.stage,
                         resultUrl := jsOrNone d.result_url, isLoading := false }
      if isTerminal d.status then
        if d.status = Status.failed then
          { s1 with error := some (jsOrDefault d.error "Job failed"), polling := false }
        else
          { s1 with polling := false }
      else
        { s1 with polling := true }
  | ApiResult.thrown msg => { s with error := some msg, isLoading := false }
  | ApiResult.rethrown msg => { s with error := some msg, isLoading := false }

/-- Processing of one interval tick of `useJobStatus`: a successful
`checkStatus` updates status, `stage || null`, `result_url || null`; at a
terminal status it clears the interval and, when failed, sets the error to
`error || 'Job failed'`.  A thrown error is caught, recorded, and clears the
interval. -/
def pollStep (o : ApiResult JobStatusResponse) (s : HookState) : HookState :=
  match o with
  | ApiResult.ok d =>
      let s1 := { s with status := some d.status, stage := jsOrNone d.stage,
                         resultUrl := jsOrNone d.result_url }
      if isTerminal d.status then
        if d.status = Status.failed then
          { s1 with polling := false, error := some (jsOrDefault d.error "Job failed") }
        else
          { s1 with polling := false }
      else s1
  | ApiResult.thrown msg => { s with error := some msg, polling := false }
  | ApiResult.rethrown msg => { s with error := some msg, polling := false }

/-- Runs the interval loop of `useJobStatus` over a list of outcomes of the
successive `checkStatus` calls: each tick issues one query and applies
`pollStep` while the interval is live; once it is cleared no query is
issued.  Returns the final state and the number of queries issued. -/
def runPolls (s : HookState) : List (ApiResult JobStatusResponse) → HookState × Nat
  | [] => (s, 0)
  | o :: rest =>
      if s.polling then
        let p := runPolls (pollStep o s) rest
        (p.1, p.2 + 1)
      else (s, 0)

/-- The whole effect of `useJobStatus`: with a falsy (`null` or empty)
`jobId` the effect returns immediately, leaving the initial state and
issuing no query; otherwise it sets loading, issues the initial
`checkStatus` (outcome `first`), and runs the interval loop over `polls`.
Returns the final hook state and the total number of status queries. -/
def useJobStatus (jobId : Option String) (first : ApiResult JobStatusResponse)
    (polls : List (ApiResult JobStatusResponse)) : HookState × Nat :=
  if jsStrFalsy jobId then (initialHookState, 0)
  else
    let s1 := initialStep first { initialHookState with isLoading := true, error := none }
    let p := runPolls s1 polls
    (p.1, p.2 + 1)

/-- The spec's §4.6 progression of observable `(status, stage)` pairs:
`queued`, `processing(cloning)`, `processing(analyzing)`,
`processing(generating)`, `processing(uploading)`, `completed`. -/
def specProgression : List (Option String × Option String) :=
  [(some "queued", none), (some "processing", some "cloning"),
   (some "processing", some "analyzing"), (some "processing", some "generating"),
   (some "processing", some "uploading"), (some "completed", none)]

/-- C1 counterexample: `checkStatus` on an id the server does not know (an
axios error with HTTP status 404) returns a snapshot with `status = queued`
— exactly what the claim says it does not do. -/
theorem C1_unknown_id_reported_queued :
    checkStatus "never-submitted" (ApiOutcome.axiosError (some 404) none)
      = ApiResult.ok { job_id := "never-submitted", status := Status.queued } := by
  decide

/-- C1 (amended): the backend signals an unknown id as HTTP 404
(`JobNotFound`), but the client-side `checkStatus` deliberately maps every
404 to a `queued` snapshot for the queried id (source comment: "404 = job
not registered yet, treat as queued"), so the unknown-id outcome is
reported as status `queued`, not kept distinct from it. -/
theorem C1_checkStatus_conflates_404_with_queued (jobId : String)
    (detail : Option String) :
    checkStatus jobId (ApiOutcome.axiosError (some 404) detail)
      = ApiResult.ok { job_id := jobId, status := Status.queued } := rfl

/-- C2 counterexample: the JSON body `submitRepo` posts carries no field
named `repo_url`; the URL travels under `github_url`. -/
theorem C2_no_repo_url_field :
    (submitRequestBody "https://github.com/user/repo").lookup "repo_url" = none ∧
    (submitRequestBody "https://github.com/user/repo").lookup "github_url"
      = some "https://github.com/user/repo" := by
  decide

/-- C2 (amended): the request body carries the repository URL in a field
named `github_url`; against the spec-modelled submission endpoint, a valid
URL yields `{ job_id, status := "queued" }` and a malformed or missing URL
fails with `InvalidRequest`. -/
theorem C2_submission_contract (valid : String → Bool) (freshId url : String) :
    (submitRequestBody url).lookup "github_url" = some url ∧
    (valid url = true →
      submitEndpoint valid freshId (submitRequestBody url)
        = Except.ok { job_id := freshId, status := "queued", message := "" }) ∧
    (valid url = false →
      submitEndpoint valid freshId (submitRequestBody url)
        = Except.error SubmitError.invalidRequest) ∧
    submitEndpoint valid freshId [] = Except.error SubmitError.invalidRequest := by
  refine ⟨rfl, ?_, ?_, rfl⟩ <;> intro h <;>
    simp [submitEndpoint, submitRequestBody, h]

/-- Witness for C2: a concrete valid submission succeeds as `queued`, and a
concrete empty URL is rejected with `InvalidRequest`. -/
theorem C2_submission_contract_witness :
    submitEndpoint (fun u => u != "") "job-1"
        (submitRequestBody "https://github.com/u/r")
      = Except.ok { job_id := "job-1", status := "queued", message := "" } ∧
    submitEndpoint (fun u => u != "") "job-1" (submitRequestBody "")
      = Except.error SubmitError.invalidRequest :=
  ⟨(C2_submission_contract (fun u => u != "") "job-1" "https://github.com/u/r").2.1 rfl,
   (C2_submission_contract (fun u => u != "") "job-1" "").2.2.1 rfl⟩

/-- C4: along the spec's state progression queued, processing(cloning),
processing(analyzing), processing(generating), processing(uploading),
completed, the step indices computed by `getCurrentStep` are monotone
non-decreasing (they are 0, 1, 2, 2, 3, 4), so a job following the spec's
state machine never moves backward in the tracker. -/
theorem C4_getCurrentStep_monotone :
    List.Chain' (· ≤ ·)
      (specProgression.map fun p => getCurrentStep p.1 p.2) := by
  have h : specProgression.map (fun p => getCurrentStep p.1 p.2)
      = [0, 1, 2, 2, 3, 4] := rfl
  rw [h]
  simp [List.chain'_cons, List.chain'_singleton]

/-- C5: the stages `analyzing` and `generating` map to the same step index
(2), and the tracker's displayed step list has exactly one entry covering
the two (the entry `analyzing`, at index 2); there is no separate
`generating` entry. -/
theorem C5_analyzing_generating_one_step :
    getCurrentStep (some "processing") (some "analyzing")
      = getCurrentStep (some "processing") (some "generating") ∧
    getCurrentStep (some "processing") (some "analyzing") = 2 ∧
    (statusSteps.filter fun st => st.id = "analyzing" || st.id = "generating").length
      = 1 ∧
    statusSteps[2]? = some ⟨"analyzing", "Analyzing"⟩ := by
  decide

/-- C7: Hero's `handleSubmit` invokes `onSubmit` only when the entered URL
is non-empty after trimming and `validateUrl` accepts it; for an empty URL
or one `validateUrl` rejects, `onSubmit` is not called and the respective
error message is set instead, so no submission request leaves the client. -/
theorem C7_handleSubmit_gates (parse : String → Option String) (url : String) :
    (strTrim url = "" →
      handleSubmit parse url
        = SubmitOutcome.rejected "Please enter a GitHub repository URL") ∧
    (strTrim url ≠ "" → validateUrl parse url = false →
      handleSubmit parse url
        = SubmitOutcome.rejected "Please enter a valid GitHub repository URL") ∧
    (strTrim url ≠ "" → validateUrl parse url = true →
      handleSubmit parse url = SubmitOutcome.submitted (strTrim url)) := by
  refine ⟨?_, ?_, ?_⟩
  · intro h
    simp [handleSubmit, h]
  · intro h hv
    simp [handleSubmit, h, hv]
  · intro h hv
    simp [handleSubmit, h, hv]

/-- Witness for C7: the three concrete outcomes — empty input rejected,
unparseable URL rejected, valid GitHub URL submitted trimmed. -/
theorem C7_handleSubmit_gates_witness :
    handleSubmit (fun _ => some "github.com") "   "
      = SubmitOutcome.rejected "Please enter a GitHub repository URL" ∧
    handleSubmit (fun _ => none) "not a url"
      = SubmitOutcome.rejected "Please enter a valid GitHub repository URL" ∧
    handleSubmit (fun _ => some "github.com") " https://github.com/u/r "
      = SubmitOutcome.submitted "https://github.com/u/r" :=
  ⟨(C7_handleSubmit_gates (fun _ => some "github.com") "   ").1 rfl,
   (C7_handleSubmit_gates (fun _ => none) "not a url").2.1 (by decide) rfl,
   (C7_handleSubmit_gates (fun _ => some "github.com") " https://github.com/u/r ").2.2
     (by decide) rfl⟩

/-- C9: `useJobStatus` called with a falsy job id (`null` or the empty
string) issues no status query at all and leaves the initial snapshot:
status, stage, resultUrl and error all null and isLoading false. -/
theorem C9_falsy_jobId_no_request (jobId : Option String)
    (h : jobId = none ∨ jobId = some "") (first : ApiResult JobStatusResponse)
    (polls : List (ApiResult JobStatusResponse)) :
    useJobStatus jobId first polls = (initialHookState, 0) ∧
    initialHookState.status = none ∧ initialHookState.stage = none ∧
    initialHookState.resultUrl = none ∧ initialHookState.error = none ∧
    initialHookState.isLoading = false := by
  rcases h with rfl | rfl <;> simp [useJobStatus, jsStrFalsy, initialHookState]

/-- Witness for C9: with a `null` job id and poll data available, the hook
performs zero queries and returns the initial snapshot. -/
theorem C9_falsy_jobId_no_request_witness :
    useJobStatus none (ApiResult.ok { job_id := "j", status := Status.completed })
        [ApiResult.ok { job_id := "j", status := Status.completed }]
      = (initialHookState, 0) :=
  (C9_falsy_jobId_no_request none (Or.inl rfl)
    (ApiResult.ok { job_id := "j", status := Status.completed })
    [ApiResult.ok { job_id := "j", status := Status.completed }]).1

/-- C10: `validateUrl` returns false whenever the URL constructor throws
(`parse` returns none), and returns true for every parseable URL whose
hostname contains "github.com" as a substring — acceptance is by substring
match, not exact-host match. -/
theorem C10_validateUrl_substring (parse : String → Option String) (url : String) :
    (parse url = none → validateUrl parse url = false) ∧
    (∀ hostname, parse url = some hostname →
      strContains hostname "github.com" = true →
      validateUrl parse url = true) := by
  constructor
  · intro h
    simp [validateUrl, h]
  · intro hostname h hc
    simp [validateUrl, h, hc]

/-- Witness for C10: an unparseable string is rejected, and a URL whose
hostname merely embeds "github.com" (and is not github.com itself) is
accepted. -/
theorem C10_validateUrl_substring_witness :
    validateUrl (fun _ => none) "not a url" = false ∧
    validateUrl (fun _ => some "evil-github.com.attacker.net")
        "https://evil-github.com.attacker.net/u/r" = true ∧
    "evil-github.com.attacker.net" ≠ "github.com" :=
  ⟨(C10_validateUrl_substring (fun _ => none) "not a url").1 rfl,
   (C10_validateUrl_substring (fun _ => some "evil-github.com.attacker.net")
      "https://evil-github.com.attacker.net/u/r").2
     "evil-github.com.attacker.net" rfl (by decide),
   by decide⟩

/-- C6 counterexample: a failed snapshot whose `error` field is present but
empty (`""`, falsy in JavaScript) makes the hook surface the fallback
"Job failed", not the snapshot's error field itself. -/
theorem C6_empty_error_falls_back :
    (pollStep
        (ApiResult.ok { job_id := "j", status := Status.failed, error := some "" })
        initialHookState).error = some "Job failed" ∧
    (pollStep
        (ApiResult.ok { job_id := "j", status := Status.failed, error := some "" })
        initialHookState).error
      ≠ ({ job_id := "j", status := Status.failed,
           error := some "" } : JobStatusResponse).error := by
  decide

/-- C6 (amended): for every polled snapshot with status `failed` the hook
surfaces a non-null error — the snapshot's `error` field when present and
non-empty, the fallback "Job failed" when it is absent or empty (JS `||`
falsiness); for a snapshot with any other status the hook's error output is
left unchanged. -/
theorem C6_failed_snapshot_error (d : JobStatusResponse) (s : HookState) :
    (d.status = Status.failed →
      (pollStep (ApiResult.ok d) s).error
        = some (jsOrDefault d.error "Job failed")) ∧
    (d.status ≠ Status.failed →
      (pollStep (ApiResult.ok d) s).error = s.error) := by
  constructor
  · intro h
    simp [pollStep, isTerminal, h]
  · intro h
    cases hst : d.status <;> simp [hst] at h ⊢ <;> simp [pollStep, isTerminal, hst]

/-- Witness for C6: a failed snapshot with a non-empty error surfaces that
error; a processing snapshot leaves the hook's error untouched (none). -/
theorem C6_failed_snapshot_error_witness :
    (pollStep
        (ApiResult.ok { job_id := "j", status := Status.failed, error := some "boom" })
        initialHookState).error = some "boom" ∧
    (pollStep
        (ApiResult.ok { job_id := "j", status := Status.processing,
                        stage := some "cloning" })
        initialHookState).error = none :=
  ⟨(C6_failed_snapshot_error
      { job_id := "j", status := Status.failed, error := some "boom" }
      initialHookState).1 rfl,
   (C6_failed_snapshot_error
      { job_id := "j", status := Status.processing, stage := some "cloning" }
      initialHookState).2 (by decide)⟩

/-- `stageStep` only ever produces 1, 2 or 3. -/
lemma stageStep_cases (s : String) :
    stageStep s = 1 ∨ stageStep s = 2 ∨ stageStep s = 3 := by
  unfold stageStep
  split
  · exact Or.inl rfl
  split
  · exact Or.inr (Or.inl rfl)
  split
  · exact Or.inr (Or.inr rfl)
  · exact Or.inl rfl

/-- A stage string outside the switch's known labels falls to the default
branch: `stageStep` returns 1. -/
lemma stageStep_unknown (s : String) (h : knownStage s = false) :
    stageStep s = 1 := by
  simp only [knownStage, Bool.or_eq_false_iff, decide_eq_false_iff_not] at h
  simp [stageStep, h.1.1.1.1, h.1.1.1.2, h.1.1.2, h.1.2, h.2]

/-- C8: `getCurrentStep` is total and closed over its result range: for
every status among null, queued, processing, completed, failed and every
stage value (absent or any string), the result lies in {-1, 0, 1, 2, 3, 4};
and for status processing with the stage absent, empty, or outside the
known labels (compared after lowercasing, as the source does), the result
is the cloning step 1. -/
theorem C8_getCurrentStep_total (status stage : Option String)
    (hs : status ∈ ([none, some "queued", some "processing", some "completed",
      some "failed"] : List (Option String))) :
    getCurrentStep status stage ∈ ([-1, 0, 1, 2, 3, 4] : List Int) ∧
    (status = some "processing" →
      (∀ s, stage = some s → s = "" ∨ knownStage s = false) →
      getCurrentStep status stage = 1) := by
  constructor
  · simp only [List.mem_cons, List.not_mem_nil, or_false] at hs
    rcases hs with rfl | rfl | rfl | rfl | rfl
    · cases stage <;> simp [getCurrentStep]
    · cases stage <;> simp [getCurrentStep]
    · cases stage with
      | none => simp [getCurrentStep]
      | some s =>
          by_cases hse : s = ""
          · simp [getCurrentStep, hse]
          · rcases stageStep_cases s with h | h | h <;>
              simp [getCurrentStep, hse, h]
    · cases stage <;> simp [getCurrentStep]
    · cases stage <;> simp [getCurrentStep]
  · intro hp hstage
    subst hp
    cases stage with
    | none => simp [getCurrentStep]
    | some s =>
        rcases hstage s rfl with rfl | hk
        · simp [getCurrentStep]
        · by_cases hse : s = "" <;>
            simp [getCurrentStep, hse, stageStep_unknown s hk]

/-- Witness for C8: at status processing with the unknown stage string
"mystery", the result is in range and equals 1. -/
theorem C8_getCurrentStep_total_witness :
    getCurrentStep (some "processing") (some "mystery")
        ∈ ([-1, 0, 1, 2, 3, 4] : List Int) ∧
    getCurrentStep (some "processing") (some "mystery") = 1 :=
  ⟨(C8_getCurrentStep_total (some "processing") (some "mystery") (by decide)).1,
   (C8_getCurrentStep_total (some "processing") (some "mystery") (by decide)).2 rfl
     (fun s h => by
       injection h with h
       subst h
       exact Or.inr (by decide))⟩

/-- Once the interval has been cleared, the loop issues no further query. -/
lemma runPolls_not_polling (s : HookState) (h : s.polling = false)
    (l : List (ApiResult JobStatusResponse)) : runPolls s l = (s, 0) := by
  cases l with
  | nil => rfl
  | cons o rest => simp [runPolls, h]

/-- A successful non-terminal poll leaves the interval as it was. -/
lemma pollStep_polling_of_nonterminal (d : JobStatusResponse)
    (h : isTerminal d.status = false) (s : HookState) :
    (pollStep (ApiResult.ok d) s).polling = s.polling := by
  simp [pollStep, h]

/-- A successful terminal poll clears the interval. -/
lemma pollStep_polling_of_terminal (d : JobStatusResponse)
    (h : isTerminal d.status = true) (s : HookState) :
    (pollStep (ApiResult.ok d) s).polling = false := by
  cases hst : d.status <;> simp [pollStep, isTerminal, hst] <;> simp [isTerminal, hst] at h

/-- A terminal initial response never starts the interval. -/
lemma initialStep_polling_of_terminal (d : JobStatusResponse)
    (h : isTerminal d.status = true) (s : HookState) :
    (initialStep (ApiResult.ok d) s).polling = false := by
  cases hst : d.status <;> simp [initialStep, isTerminal, hst] <;> simp [isTerminal, hst] at h

/-- A non-terminal initial response starts the interval. -/
lemma initialStep_polling_of_nonterminal (d : JobStatusResponse)
    (h : isTerminal d.status = false) (s : HookState) :
    (initialStep (ApiResult.ok d) s).polling = true := by
  simp [initialStep, h]

/-- While the interval is live, the loop consumes every successful
non-terminal poll of `pre`, then the terminal poll `d`, and nothing of what
comes after: the query count is `pre.length + 1` whatever `suf` is. -/
lemma runPolls_count_to_terminal (d : JobStatusResponse)
    (hd : isTerminal d.status = true)
    (suf : List (ApiResult JobStatusResponse)) :
    ∀ pre : List (ApiResult JobStatusResponse),
      (∀ o ∈ pre, ∃ r, o = ApiResult.ok r ∧ isTerminal r.status = false) →
      ∀ s : HookState, s.polling = true →
      (runPolls s (pre ++ ApiResult.ok d :: suf)).2 = pre.length + 1 := by
  intro pre
  induction pre with
  | nil =>
      intro _ s hs
      have hterm := pollStep_polling_of_terminal d hd s
      simp [runPolls, hs, runPolls_not_polling _ hterm suf]
  | cons o rest ih =>
      intro hpre s hs
      obtain ⟨r, rfl, hr⟩ := hpre o (List.mem_cons_self o rest)
      have hnext : (pollStep (ApiResult.ok r) s).polling = true := by
        rw [pollStep_polling_of_nonterminal r hr s]
        exact hs
      have hrest := ih (fun o ho => hpre o (List.mem_cons_of_mem _ ho))
        (pollStep (ApiResult.ok r) s) hnext
      simp [runPolls, hs, hrest, List.length_cons]

/-- C3: the polling loop of `useJobStatus` stops exactly at the first
terminal snapshot.  If the initial `checkStatus` already reports `completed`
or `failed`, exactly one query is issued regardless of how many further poll
outcomes would be available; if the initial response is non-terminal, the
polls preceding the first terminal one are all consumed, the terminal one is
the last query, and nothing after it is queried: the total count is the
non-terminal prefix length plus two (initial query and terminal poll),
independent of the remaining outcomes. -/
theorem C3_polling_stops_at_terminal (jobId : String) (hj : jobId ≠ "")
    (first d : JobStatusResponse) (hfirst : isTerminal first.status = false)
    (hd : isTerminal d.status = true)
    (pre suf : List (ApiResult JobStatusResponse))
    (hpre : ∀ o ∈ pre, ∃ r, o = ApiResult.ok r ∧ isTerminal r.status = false) :
    (useJobStatus (some jobId) (ApiResult.ok d) suf).2 = 1 ∧
    (useJobStatus (some jobId) (ApiResult.ok first)
        (pre ++ ApiResult.ok d :: suf)).2 = pre.length + 2 := by
  constructor
  · have hterm := initialStep_polling_of_terminal d hd
      { initialHookState with isLoading := true, error := none }
    simp [useJobStatus, jsStrFalsy, hj, runPolls_not_polling _ hterm suf]
  · have hlive := initialStep_polling_of_nonterminal first hfirst
      { initialHookState with isLoading := true, error := none }
    have hcount := runPolls_count_to_terminal d hd suf pre hpre
      (initialStep (ApiResult.ok first)
        { initialHookState with isLoading := true, error := none }) hlive
    simp [useJobStatus, jsStrFalsy, hj, hcount]

/-- Witness for C3: a terminal-first run issues 1 query; a run observing
queued, then processing, then completed issues 3 queries even though two
more poll outcomes were available. -/
theorem C3_polling_stops_at_terminal_witness :
    (useJobStatus (some "job-7")
        (ApiResult.ok { job_id := "job-7", status := Status.completed,
                        result_url := some "https://cdn/doc" })
        [ApiResult.ok { job_id := "job-7", status := Status.completed },
         ApiResult.ok { job_id := "job-7", status := Status.completed }]).2 = 1 ∧
    (useJobStatus (some "job-7")
        (ApiResult.ok { job_id := "job-7", status := Status.queued })
        ([ApiResult.ok { job_id := "job-7", status := Status.processing,
                         stage := some "cloning" }] ++
          ApiResult.ok { job_id := "job-7", status := Status.completed,
                         result_url := some "https://cdn/doc" } ::
          [ApiResult.ok { job_id := "job-7", status := Status.completed },
           ApiResult.ok { job_id := "job-7", status := Status.completed }])).2
      = 3 :=
  C3_polling_stops_at_terminal "job-7" (by decide)
    { job_id := "job-7", status := Status.queued }
    { job_id := "job-7", status := Status.completed,
      result_url := some "https://cdn/doc" }
    rfl rfl
    [ApiResult.ok { job_id := "job-7", status := Status.processing,
                    stage := some "cloning" }]
    [ApiResult.ok { job_id := "job-7", status := Status.completed },
     ApiResult.ok { job_id := "job-7", status := Status.completed }]
    (by
      intro o ho
      rw [List.mem_singleton] at ho
      subst ho
      exact ⟨_, rfl, rfl⟩)

end AutoReadMe
